import Mathlib

/-!
Shallow embedding of the ScholExplorer coverage-check script (src/check.py).

The script streams semicolon-delimited identifier-pair records, builds a
lookup URL per record, queries a remote service for a link count, collects
enriched records, writes them to an output file, and finally re-reads both
output files to compute summary coverage statistics.

Strings are modelled with Lean `String` but every operation is written by
structural recursion over the character list, mirroring the Python string
and `csv`-module operations the script relies on, so that all definitions
reduce in the kernel.
-/

namespace ScholCheck

/-- Decidable equality for `Except` results, used to evaluate the
embedding on concrete inputs. -/
instance {ε α : Type} [DecidableEq ε] [DecidableEq α] : DecidableEq (Except ε α) :=
  fun a b =>
    match a, b with
    | Except.error x, Except.error y =>
      if h : x = y then Decidable.isTrue (congrArg Except.error h)
      else Decidable.isFalse (fun hc => h (Except.error.inj hc))
    | Except.ok x, Except.ok y =>
      if h : x = y then Decidable.isTrue (congrArg Except.ok h)
      else Decidable.isFalse (fun hc => h (Except.ok.inj hc))
    | Except.error _, Except.ok _ => Decidable.isFalse (fun hc => Except.noConfusion hc)
    | Except.ok _, Except.error _ => Decidable.isFalse (fun hc => Except.noConfusion hc)

/-- The UTF-8 byte-order mark character U+FEFF, as stripped by
`h.lstrip(chr(0xFEFF))` in `read_csv`. -/
def bomChar : Char := Char.ofNat 0xFEFF

/-- The quote character used by the script for csv reading and writing. -/
def quoteChar : Char := Char.ofNat 34

/-- Whitespace characters removed by Python `str.strip()` (ASCII subset;
U+FEFF is not whitespace in Python and is not included). -/
def isPyWS (c : Char) : Bool :=
  c = ' ' || c = Char.ofNat 9 || c = Char.ofNat 10 || c = Char.ofNat 13 ||
  c = Char.ofNat 11 || c = Char.ofNat 12

/-- Python `str.strip()`: drop leading and trailing whitespace. -/
def pyStrip (s : String) : String :=
  String.mk (((s.data.dropWhile isPyWS).reverse.dropWhile isPyWS).reverse)

/-- Python `h.lstrip(BOM)`: drop every leading occurrence of the
byte-order mark (line 80 of `check.py`). -/
def lstripBOM (s : String) : String :=
  String.mk (s.data.dropWhile (fun c => c = bomChar))

/-- Python `h.replace(chr(34), empty)`: remove every double-quote
character (line 80 of `check.py`). -/
def removeQuotes (s : String) : String :=
  String.mk (s.data.filter (fun c => c ≠ quoteChar))

/-- Split a character list at every occurrence of `sep`, keeping empty
segments, exactly like Python `str.split(sep)` with a one-character
separator. -/
def splitOnChar (sep : Char) : List Char → List (List Char)
  | [] => [[]]
  | c :: rest =>
    if c = sep then [] :: splitOnChar sep rest
    else
      match splitOnChar sep rest with
      | f :: fs => (c :: f) :: fs
      | [] => [[c]]

/-- Python `line.split(chr(59))` on a string. -/
def splitSemi (s : String) : List String :=
  (splitOnChar (Char.ofNat 59) s.data).map String.mk

/-- Header normalisation of `read_csv` (lines 79-80 of `check.py`):
`next(csvfile).strip().split(chr(59))`, then per field
`h.lstrip(BOM).replace(quote, empty)`. -/
def parseHeader (line : String) : List String :=
  (splitSemi (pyStrip line)).map (fun h => removeQuotes (lstripBOM h))

/-! ## Values, rows and the csv line parser -/

/-- Python values that occur in the row and record dictionaries of the
script: strings from csv cells, the integer `totalLinks` count, `None`
(the `DictReader` restval for short rows) and the list of surplus cells
(the `DictReader` restkey value for long rows). -/
inductive PyVal where
  | str : String → PyVal
  | int : Int → PyVal
  | none : PyVal
  | rest : List String → PyVal
deriving DecidableEq

/-- A row produced by `csv.DictReader`: insertion-ordered key/value pairs.
The key `Option.none` models Python `None`, the default restkey. -/
abbrev Row := List (Option String × PyVal)

/-- An enriched record (`current_stats` dict in `check.py`): string keys
only, in insertion order (the order determines the output header). -/
abbrev Stat := List (String × PyVal)

/-- Dictionary lookup `item[k]` on a reader row; `Option.none` result
models a Python `KeyError`. -/
def rowGet (row : Row) (k : String) : Option PyVal :=
  (row.find? (fun p => p.1 == some k)).map (fun p => p.2)

/-- Dictionary lookup on an enriched record. -/
def statGet (st : Stat) (k : String) : Option PyVal :=
  (st.find? (fun p => p.1 == k)).map (fun p => p.2)

/-- Parser state of the cpython `csv` reader field scanner. -/
inductive CsvSt where
  | startF : CsvSt
  | inF : CsvSt
  | inQ : CsvSt
  | quoteQ : CsvSt

/-- One-character-per-step field scanner modelling the cpython `_csv`
reader automaton for `delimiter=chr(59)`, `quotechar=chr(34)`, non-strict
mode, on a single line (no embedded newlines). `cur` holds the current
field reversed. -/
def csvRun : List Char → CsvSt → List Char → List String
  | [], _, cur => [String.mk cur.reverse]
  | c :: rest, CsvSt.startF, cur =>
    if c = quoteChar then csvRun rest CsvSt.inQ cur
    else if c = Char.ofNat 59 then String.mk cur.reverse :: csvRun rest CsvSt.startF []
    else csvRun rest CsvSt.inF (c :: cur)
  | c :: rest, CsvSt.inF, cur =>
    if c = Char.ofNat 59 then String.mk cur.reverse :: csvRun rest CsvSt.startF []
    else csvRun rest CsvSt.inF (c :: cur)
  | c :: rest, CsvSt.inQ, cur =>
    if c = quoteChar then csvRun rest CsvSt.quoteQ cur
    else csvRun rest CsvSt.inQ (c :: cur)
  | c :: rest, CsvSt.quoteQ, cur =>
    if c = quoteChar then csvRun rest CsvSt.inQ (quoteChar :: cur)
    else if c = Char.ofNat 59 then String.mk cur.reverse :: csvRun rest CsvSt.startF []
    else csvRun rest CsvSt.inF (c :: cur)

/-- Parse one data line into its cells, as `csv.reader` does; a blank
line yields the empty row (which `DictReader` then skips). -/
def parseCsvLine (s : String) : List String :=
  match s.data with
  | [] => []
  | l => csvRun l CsvSt.startF []

/-- Row-dictionary construction of `csv.DictReader.__next__` for given
field names: zip names with cells; surplus cells are collected under the
restkey `None`; missing cells bind the remaining field names to the
restval `None`. -/
def dictRow (fns row : List String) : Row :=
  ((List.zip fns row).map (fun p => (some p.1, PyVal.str p.2)))
  ++ (if fns.length < row.length
      then [(Option.none, PyVal.rest (row.drop fns.length))] else [])
  ++ (if row.length < fns.length
      then (fns.drop row.length).map (fun k => (some k, PyVal.none)) else [])

/-! ## The file system model and `read_csv` -/

/-- Error taxonomy of the script: Python `FileNotFoundError` on a missing
input; the abort on a file with no header line (`next` on an exhausted
handle); `KeyError` on a missing row column; the schema error raised when
a response lacks `totalLinks` or a persisted count cell is non-numeric;
and an output write failure. -/
inductive Err where
  | notFound : Err
  | malformedInput : Err
  | keyError : Err
  | schemaError : Err
  | ioError : Err
deriving DecidableEq

/-- A file system: path to file content as a list of lines (newlines
stripped), or `Option.none` when the path does not exist. -/
abbrev FS := String → Option (List String)

/-- Overwrite one file (Python `open(path, mode=chr(119))` plus writes). -/
def fsWrite (fs : FS) (path : String) (lines : List String) : FS :=
  fun p => if p = path then some lines else fs p

/-- Embedding of `read_csv` (lines 56-83 of `check.py`): open the file
(`NotFound` if absent), read the header line (`MalformedInput` when the
file has no lines), normalise it with `parseHeader`, then parse every
remaining line with the csv scanner, skip blank rows, and build the
`DictReader` row dictionaries. The generator is modelled eagerly; the
claims considered here are insensitive to the laziness of the stream. -/
def read_csv (fs : FS) (path : String) : Except Err (List Row) :=
  match fs path with
  | Option.none => Except.error Err.notFound
  | some [] => Except.error Err.malformedInput
  | some (headerLine :: rest) =>
    Except.ok (((rest.map parseCsvLine).filter (fun r => ¬ r.isEmpty)).map
      (dictRow (parseHeader headerLine)))

/-! ## Query construction and the verifier loop -/

/-- Base API URL (line 54 of `check.py`); note the trailing slash. -/
def scholexplorer_domain : String := "https://api.scholexplorer.openaire.eu/"

/-- The f-string `method_path` of `check_stats_no_scholix_but_datacite`
(line 108): variant A, with the relation segment. -/
def method_path_A (source_pid target_pid rel : String) : String :=
  "/v3/Links?sourcePid=" ++ source_pid ++ "&targetPid=" ++ target_pid
    ++ "&relation=" ++ rel

/-- The f-string `scholix_url` (line 109): domain followed by path. -/
def scholix_url_A (source_pid target_pid rel : String) : String :=
  scholexplorer_domain ++ method_path_A source_pid target_pid rel

/-- The f-string `method_path` of `check_stats_no_scholix_no_datacite`
(line 152): variant B, without a relation segment. -/
def method_path_B (source_pid target_pid : String) : String :=
  "/v3/Links?sourcePid=" ++ source_pid ++ "&targetPid=" ++ target_pid

/-- The f-string `scholix_url` (line 153). -/
def scholix_url_B (source_pid target_pid : String) : String :=
  scholexplorer_domain ++ method_path_B source_pid target_pid

/-- Python list repr, used only when an f-string interpolates a restkey
list (unreachable for named columns). -/
def pyListRepr (l : List String) : String :=
  "[" ++ String.intercalate ", "
    (l.map (fun s => String.mk (Char.ofNat 39 :: s.data ++ [Char.ofNat 39]))) ++ "]"

/-- Python `str()` conversion as performed by f-string interpolation. -/
def pyStr : PyVal → String
  | PyVal.str s => s
  | PyVal.int n => toString n
  | PyVal.none => "None"
  | PyVal.rest l => pyListRepr l

/-- The remote lookup service: maps a URL to the `totalLinks` value of
the JSON response, or `Option.none` when the response lacks the
`totalLinks` field (in which case `check.py` raises `KeyError`,
lines 110 and 154). -/
abbrev Lookup := String → Option Int

/-- Per-record body of the variant-A loop (lines 104-117 of `check.py`):
fetch the three columns (`KeyError` when one is missing), build the URL
with the relation value, perform the lookup (schema error when the
response has no `totalLinks`), and assemble `current_stats` in the
source's key-insertion order. -/
def processRowA (lookup : Lookup) (row : Row) : Except Err Stat :=
  match rowGet row "Dataset_PID", rowGet row "Literature_PID",
        rowGet row "DataCite_RelationType_of_Dataset_PID_record" with
  | some dp, some lp, some rel =>
    match lookup (scholix_url_A (pyStr dp) (pyStr lp) (pyStr rel)) with
    | some n =>
      Except.ok
        [("Dataset_PID", dp), ("Literature_PID", lp),
         ("DataCite_RelationType_of_Dataset_PID_record", rel),
         ("links_in_scholix", PyVal.int n),
         ("url_to_scholix",
          PyVal.str (scholix_url_A (pyStr dp) (pyStr lp) (pyStr rel)))]
    | Option.none => Except.error Err.schemaError
  | _, _, _ => Except.error Err.keyError

/-- Per-record body of the variant-B loop (lines 149-160 of `check.py`):
as variant A but with no relation column and no relation segment. -/
def processRowB (lookup : Lookup) (row : Row) : Except Err Stat :=
  match rowGet row "Dataset_PID", rowGet row "Literature_PID" with
  | some dp, some lp =>
    match lookup (scholix_url_B (pyStr dp) (pyStr lp)) with
    | some n =>
      Except.ok
        [("Dataset_PID", dp), ("Literature_PID", lp),
         ("links_in_scholix", PyVal.int n),
         ("url_to_scholix", PyVal.str (scholix_url_B (pyStr dp) (pyStr lp)))]
    | Option.none => Except.error Err.schemaError
  | _, _ => Except.error Err.keyError

/-- The `for item in read_csv(...)` accumulation loop: records are
processed strictly in input order, appending each enriched record to
`stats`; the first failure aborts the whole pass. -/
def verifyLoop (pr : Row → Except Err Stat) : List Row → Except Err (List Stat)
  | [] => Except.ok []
  | row :: rest =>
    match pr row with
    | Except.error e => Except.error e
    | Except.ok s =>
      match verifyLoop pr rest with
      | Except.error e => Except.error e
      | Except.ok ss => Except.ok (s :: ss)

/-! ## The writer phase and whole passes -/

/-- Observable write-phase events of one pass: the skip message
(`No stats to write.`), the opening of the output file, and the row
write summary. -/
inductive WEvent where
  | skipMsg : WEvent
  | openOutput : String → WEvent
  | wroteRows : String → Nat → WEvent
deriving DecidableEq

/-- Minimal-quoting escape of one output cell, as `csv.writer` with
`QUOTE_MINIMAL` does: quote the cell when it contains the delimiter, the
quote character or a line break, doubling embedded quotes. -/
def escapeQuotes : List Char → List Char
  | [] => []
  | c :: rest =>
    if c = quoteChar then quoteChar :: quoteChar :: escapeQuotes rest
    else c :: escapeQuotes rest

/-- Whether `csv.writer` must quote this cell. -/
def csvNeedsQuote (s : String) : Bool :=
  s.data.any (fun c => c = Char.ofNat 59 || c = quoteChar ||
                       c = Char.ofNat 10 || c = Char.ofNat 13)

/-- Serialise one output cell. -/
def csvField (s : String) : String :=
  if csvNeedsQuote s then String.mk (quoteChar :: escapeQuotes s.data ++ [quoteChar])
  else s

/-- Join cells with the semicolon delimiter. -/
def joinSemi : List String → String
  | [] => ""
  | [x] => x
  | x :: y :: rest => x ++ ";" ++ joinSemi (y :: rest)

/-- Serialise one output line. -/
def csvLine (cells : List String) : String := joinSemi (cells.map csvField)

/-- Cell text written by `csv.DictWriter` for one value: strings as-is,
integers via `str`, `None` (and a missing key) as the empty cell. -/
def pyValCell : Option PyVal → String
  | some (PyVal.str s) => s
  | some (PyVal.int n) => toString n
  | some PyVal.none => ""
  | some (PyVal.rest l) => pyListRepr l
  | Option.none => ""

/-- File content written by the `csv.DictWriter` block (lines 125-129 of
`check.py`): header from the first record's keys, then one line per
record (only called with a non-empty list in the source). -/
def serializeStats : List Stat → List String
  | [] => []
  | s :: rest =>
    csvLine (s.map (fun p => p.1)) ::
      (s :: rest).map (fun st =>
        csvLine ((s.map (fun p => p.1)).map (fun k => pyValCell (statGet st k))))

/-- Write phase of a pass (lines 121-130 / 164-173 of `check.py`): when
`stats` is empty only the skip message is printed and no file is touched;
otherwise the output file is opened (created/truncated) and all rows are
written. -/
def writePhase (outPath : String) (stats : List Stat) (fs : FS) : FS × List WEvent :=
  match stats with
  | [] => (fs, [WEvent.skipMsg])
  | s :: rest =>
    (fsWrite fs outPath (serializeStats (s :: rest)),
     [WEvent.openOutput outPath, WEvent.wroteRows outPath (s :: rest).length])

/-- Result of one whole pass: the file system after the pass, the
write-phase events, and the propagated error if the pass aborted. -/
structure PassOut where
  fs : FS
  events : List WEvent
  err : Option Err

/-- One whole pipeline pass (`check_stats_no_scholix_but_datacite` or
`check_stats_no_scholix_no_datacite`): read the input, verify every
record in order, and only then run the write phase; any error propagates
and aborts the pass with the file system untouched. -/
def runPass (inPath outPath : String) (pr : Row → Except Err Stat) (fs : FS) : PassOut :=
  match read_csv fs inPath with
  | Except.error e => ⟨fs, [], some e⟩
  | Except.ok rows =>
    match verifyLoop pr rows with
    | Except.error e => ⟨fs, [], some e⟩
    | Except.ok stats =>
      match writePhase outPath stats fs with
      | (fs2, evs) => ⟨fs2, evs, Option.none⟩

/-- Input path of pass A (line 103 of `check.py`). -/
def inputPathA : String := "20251124_no_Scholix_but_DataCite.csv"

/-- Input path of pass B (line 148). -/
def inputPathB : String := "20251124_no_Scholix_no_DataCite.csv"

/-- Output path of pass A (line 124). -/
def outPathA : String := "no_scholix_but_datacite_check.csv"

/-- Output path of pass B (line 167). -/
def outPathB : String := "no_scholix_no_datacite.csv"

/-! ## The summary phase and the entry point -/

/-- Python `int(s)` on a string: strip whitespace, optional sign, then at
least one decimal digit; `Option.none` models the `ValueError` raised on
any other shape. -/
def pyInt (s : String) : Option Int :=
  match (pyStrip s).data with
  | [] => Option.none
  | c :: rest =>
    let ds := if c = Char.ofNat 45 || c = Char.ofNat 43 then rest else c :: rest
    if ds.isEmpty || ¬ ds.all Char.isDigit then Option.none
    else
      let n : Nat := ds.foldl (fun a d => a * 10 + (d.toNat - 48)) 0
      some (if c = Char.ofNat 45 then -(n : Int) else (n : Int))

/-- The expression `int(k[links_in_scholix])` of the summary phase
(lines 184 and 194 of `check.py`): a missing column is a `KeyError`, a
non-string value or a non-numeric string raises, modelled as the schema
error of the persisted count column. -/
def linksOfRow (row : Row) : Except Err Int :=
  match rowGet row "links_in_scholix" with
  | Option.none => Except.error Err.keyError
  | some (PyVal.str s) =>
    match pyInt s with
    | some n => Except.ok n
    | Option.none => Except.error Err.schemaError
  | some _ => Except.error Err.schemaError

/-- Summary statistics printed by the entry point. -/
structure SummaryStats where
  total : Nat
  with_links : Nat
  percentage : ℚ
deriving DecidableEq

/-- The summary computation of `__main__` over one re-read output
(lines 184-189 and 192-196 of `check.py`, the identical formula is
evaluated once per output file): `total` is the number of data rows,
`with_links` counts rows whose parsed count is strictly positive, and the
percentage division is guarded by `if total > 0 else 0`. -/
def summaryStats (rows : List Row) : Except Err SummaryStats :=
  match rows.mapM linksOfRow with
  | Except.error e => Except.error e
  | Except.ok counts =>
    Except.ok
      { total := rows.length
        with_links := (counts.filter (fun n => 0 < n)).length
        percentage :=
          if 0 < rows.length then
            (((counts.filter (fun n => 0 < n)).length : ℚ) / (rows.length : ℚ)) * 100
          else 0 }

/-- The `__main__` block (lines 175-196 of `check.py`): run pass A, then
pass B, then re-read both persisted outputs and compute the two
summaries; every failure propagates and aborts the process. -/
def pyMain (lookup : Lookup) (fs : FS) : Except Err (SummaryStats × SummaryStats) :=
  match (runPass inputPathA outPathA (processRowA lookup) fs : PassOut) with
  | ⟨_, _, some e⟩ => Except.error e
  | ⟨fsA, _, Option.none⟩ =>
    match (runPass inputPathB outPathB (processRowB lookup) fsA : PassOut) with
    | ⟨_, _, some e⟩ => Except.error e
    | ⟨fsB, _, Option.none⟩ =>
      match read_csv fsB outPathA with
      | Except.error e => Except.error e
      | Except.ok rowsA =>
        match read_csv fsB outPathB with
        | Except.error e => Except.error e
        | Except.ok rowsB =>
          match summaryStats rowsA with
          | Except.error e => Except.error e
          | Except.ok sA =>
            match summaryStats rowsB with
            | Except.error e => Except.error e
            | Except.ok sB => Except.ok (sA, sB)

/-! ## Concrete fixtures used to evaluate the embedding -/

/-- A lookup service that reports `totalLinks = 2` for every query. -/
def lookupTwo : Lookup := fun _ => some 2

/-- A lookup service whose responses never carry `totalLinks`. -/
def lookupMissing : Lookup := fun _ => Option.none

/-- A file system holding both input files and both output files with a
header line and no data rows. -/
def fsHeaderOnly : FS := fun p =>
  if p = inputPathA then
    some ["Dataset_PID;Literature_PID;DataCite_RelationType_of_Dataset_PID_record"]
  else if p = inputPathB then some ["Dataset_PID;Literature_PID"]
  else if p = outPathA then
    some ["Dataset_PID;Literature_PID;DataCite_RelationType_of_Dataset_PID_record;links_in_scholix;url_to_scholix"]
  else if p = outPathB then
    some ["Dataset_PID;Literature_PID;links_in_scholix;url_to_scholix"]
  else Option.none

/-- A file system holding only the two input files, each header-only, as
at the start of a fresh run on empty datasets. -/
def fsFresh : FS := fun p =>
  if p = inputPathA then
    some ["Dataset_PID;Literature_PID;DataCite_RelationType_of_Dataset_PID_record"]
  else if p = inputPathB then some ["Dataset_PID;Literature_PID"]
  else Option.none

/-- A file system whose variant-A input holds one record. -/
def fsOneRow : FS := fun p =>
  if p = inputPathA then
    some ["Dataset_PID;Literature_PID;DataCite_RelationType_of_Dataset_PID_record",
          "D1;L1;IsSupplementTo"]
  else if p = inputPathB then some ["Dataset_PID;Literature_PID"]
  else Option.none

/-- A concrete variant-A input row. -/
def rowA1 : Row :=
  [(some "Dataset_PID", PyVal.str "D1"), (some "Literature_PID", PyVal.str "L1"),
   (some "DataCite_RelationType_of_Dataset_PID_record", PyVal.str "IsSupplementTo")]

/-- A concrete variant-B input row. -/
def rowB1 : Row :=
  [(some "Dataset_PID", PyVal.str "D2"), (some "Literature_PID", PyVal.str "L2")]

/-- The enriched record produced from `rowA1` under `lookupTwo`. -/
def statA1 : Stat :=
  [("Dataset_PID", PyVal.str "D1"), ("Literature_PID", PyVal.str "L1"),
   ("DataCite_RelationType_of_Dataset_PID_record", PyVal.str "IsSupplementTo"),
   ("links_in_scholix", PyVal.int 2),
   ("url_to_scholix", PyVal.str (scholix_url_A "D1" "L1" "IsSupplementTo"))]

/-- Persisted-output rows whose count column reads 0, 3, 0, 5, 1. -/
def rows5 : List Row :=
  ["0", "3", "0", "5", "1"].map (fun s => [(some "links_in_scholix", PyVal.str s)])

/-- A header line that starts with a byte-order mark and whose second
segment hides a byte-order mark behind a quote character. -/
def hdrBad : String :=
  String.mk [bomChar, 'A', Char.ofNat 59, quoteChar, bomChar, 'X']

/-- The all-zero summary. -/
def s00 : SummaryStats := ⟨0, 0, 0⟩

/-- A file system whose variant-A input exists but is completely empty
(no header line). -/
def fsEmptyInput : FS := fun p => if p = inputPathA then some [] else Option.none

/-- A file system with header-only inputs, a pre-existing header-only
variant-A output, and no variant-B output. -/
def fsOutAOnly : FS := fun p =>
  if p = inputPathA then
    some ["Dataset_PID;Literature_PID;DataCite_RelationType_of_Dataset_PID_record"]
  else if p = inputPathB then some ["Dataset_PID;Literature_PID"]
  else if p = outPathA then
    some ["Dataset_PID;Literature_PID;DataCite_RelationType_of_Dataset_PID_record;links_in_scholix;url_to_scholix"]
  else Option.none

/-! ## Helper lemmas -/

/-- A successful variant-A record carries the exact input identifier pair
and the URL built from the row's own columns. -/
theorem processRowA_ok (lookup : Lookup) (row : Row) (st : Stat)
    (h : processRowA lookup row = Except.ok st) :
    ∃ dp lp rel n,
      rowGet row "Dataset_PID" = some dp ∧
      rowGet row "Literature_PID" = some lp ∧
      rowGet row "DataCite_RelationType_of_Dataset_PID_record" = some rel ∧
      lookup (scholix_url_A (pyStr dp) (pyStr lp) (pyStr rel)) = some n ∧
      st = [("Dataset_PID", dp), ("Literature_PID", lp),
            ("DataCite_RelationType_of_Dataset_PID_record", rel),
            ("links_in_scholix", PyVal.int n),
            ("url_to_scholix",
             PyVal.str (scholix_url_A (pyStr dp) (pyStr lp) (pyStr rel)))] := by
  unfold processRowA at h
  split at h
  · rename_i dp lp rel hdp hlp hrel
    split at h
    · rename_i n hn
      exact ⟨dp, lp, rel, n, hdp, hlp, hrel, hn, (Except.ok.inj h).symm⟩
    · exact absurd h (by simp)
  · exact absurd h (by simp)

/-- A successful variant-B record carries the exact input identifier pair
and the URL built from the row's own columns. -/
theorem processRowB_ok (lookup : Lookup) (row : Row) (st : Stat)
    (h : processRowB lookup row = Except.ok st) :
    ∃ dp lp n,
      rowGet row "Dataset_PID" = some dp ∧
      rowGet row "Literature_PID" = some lp ∧
      lookup (scholix_url_B (pyStr dp) (pyStr lp)) = some n ∧
      st = [("Dataset_PID", dp), ("Literature_PID", lp),
            ("links_in_scholix", PyVal.int n),
            ("url_to_scholix",
             PyVal.str (scholix_url_B (pyStr dp) (pyStr lp)))] := by
  unfold processRowB at h
  split at h
  · rename_i dp lp hdp hlp
    split at h
    · rename_i n hn
      exact ⟨dp, lp, n, hdp, hlp, hn, (Except.ok.inj h).symm⟩
    · exact absurd h (by simp)
  · exact absurd h (by simp)

/-- The verify loop succeeds exactly when every record verifies, and then
relates input and output records pointwise in order. -/
theorem verifyLoop_ok_forall2 (pr : Row → Except Err Stat) :
    ∀ rows stats, verifyLoop pr rows = Except.ok stats →
      List.Forall₂ (fun row st => pr row = Except.ok st) rows stats := by
  intro rows
  induction rows with
  | nil =>
    intro stats h
    cases stats with
    | nil => exact List.Forall₂.nil
    | cons s ss => exact absurd (Except.ok.inj h) (by simp [verifyLoop] at h)
  | cons row rest ih =>
    intro stats h
    unfold verifyLoop at h
    cases hpr : pr row with
    | error e => rw [hpr] at h; exact absurd h (by simp)
    | ok s =>
      rw [hpr] at h
      cases hrest : verifyLoop pr rest with
      | error e => rw [hrest] at h; exact absurd h (by simp)
      | ok ss =>
        rw [hrest] at h
        cases Except.ok.inj h
        exact List.Forall₂.cons hpr (ih ss hrest)

/-- A failing record verification aborts the whole loop with its error. -/
theorem verifyLoop_error (pr : Row → Except Err Stat) :
    ∀ pre row post e, (∀ r ∈ pre, ∃ s, pr r = Except.ok s) →
      pr row = Except.error e →
      ∃ e2, verifyLoop pr (pre ++ row :: post) = Except.error e2 := by
  intro pre
  induction pre with
  | nil =>
    intro row post e _ hrow
    exact ⟨e, by simp [verifyLoop, hrow]⟩
  | cons r rest ih =>
    intro row post e hpre hrow
    obtain ⟨s, hs⟩ := hpre r (List.mem_cons_self r rest)
    obtain ⟨e2, he2⟩ := ih row post e (fun x hx => hpre x (List.mem_cons_of_mem r hx)) hrow
    exact ⟨e2, by simp [verifyLoop, hs, he2]⟩

/-- When the verify loop fails, the pass propagates the error, leaves the
file system untouched, and emits no write-phase event at all. -/
theorem runPass_of_loop_error (inP outP : String) (pr : Row → Except Err Stat)
    (fs : FS) (rows : List Row) (e : Err)
    (hread : read_csv fs inP = Except.ok rows)
    (hloop : verifyLoop pr rows = Except.error e) :
    runPass inP outP pr fs = ⟨fs, [], some e⟩ := by
  simp [runPass, hread, hloop]

/-- When the verify loop yields no enriched record, the pass leaves the
file system untouched and only prints the skip message. -/
theorem runPass_of_loop_empty (inP outP : String) (pr : Row → Except Err Stat)
    (fs : FS) (rows : List Row)
    (hread : read_csv fs inP = Except.ok rows)
    (hloop : verifyLoop pr rows = Except.ok []) :
    runPass inP outP pr fs = ⟨fs, [WEvent.skipMsg], Option.none⟩ := by
  simp [runPass, hread, hloop, writePhase]

/-- A pass over a header-only input file verifies nothing, writes
nothing, and leaves the file system untouched. -/
theorem runPass_header_only (inP outP : String) (pr : Row → Except Err Stat)
    (fs : FS) (hdr : String) (hin : fs inP = some [hdr]) :
    runPass inP outP pr fs = ⟨fs, [WEvent.skipMsg], Option.none⟩ := by
  have hread : read_csv fs inP = Except.ok [] := by simp [read_csv, hin]
  exact runPass_of_loop_empty inP outP pr fs [] hread rfl

/-- A pass never touches any file other than its own output file. -/
theorem runPass_fs_frame (inP outP : String) (pr : Row → Except Err Stat)
    (fs : FS) (p : String) (hne : p ≠ outP) :
    (runPass inP outP pr fs).fs p = fs p := by
  cases hread : read_csv fs inP with
  | error e => simp [runPass, hread]
  | ok rows =>
    cases hloop : verifyLoop pr rows with
    | error e => simp [runPass, hread, hloop]
    | ok stats =>
      cases stats with
      | nil => simp [runPass, hread, hloop, writePhase]
      | cons s rest => simp [runPass, hread, hloop, writePhase, fsWrite, hne]

/-- Applying `dictRow` to an exhausted cell list binds every remaining field name
to the restval `None`. -/
theorem dictRow_nil_row (fns : List String) :
    dictRow fns [] = fns.map (fun k => (some k, PyVal.none)) := by
  cases fns with
  | nil => rfl
  | cons f fs => simp [dictRow]

/-- Building a row dictionary consumes one field name and one cell at a time. -/
theorem dictRow_cons (f : String) (fns : List String) (r : String) (row : List String) :
    dictRow (f :: fns) (r :: row) = (some f, PyVal.str r) :: dictRow fns row := by
  simp only [dictRow, List.zip_cons_cons, List.map_cons, List.length_cons,
    Nat.add_lt_add_iff_right, List.drop_succ_cons, List.cons_append]

/-- Every field name is a key of every row dictionary built from it. -/
theorem dictRow_mem_keys :
    ∀ (fns row : List String) (k : String), k ∈ fns →
      ∃ v, (some k, v) ∈ dictRow fns row := by
  intro fns
  induction fns with
  | nil => intro row k hk; exact absurd hk (List.not_mem_nil k)
  | cons f fs ih =>
    intro row k hk
    cases row with
    | nil =>
      refine ⟨PyVal.none, ?_⟩
      rw [dictRow_nil_row]
      exact List.mem_map_of_mem (fun k => (some k, PyVal.none)) hk
    | cons r rs =>
      rw [dictRow_cons]
      rcases List.mem_cons.mp hk with rfl | hk2
      · exact ⟨PyVal.str r, List.mem_cons_self _ _⟩
      · obtain ⟨v, hv⟩ := ih rs k hk2
        exact ⟨v, List.mem_cons_of_mem _ hv⟩

/-- The head of a `dropWhile` result never satisfies the predicate. -/
theorem head_dropWhile_false (p : Char → Bool) :
    ∀ (l : List Char) (c : Char), (l.dropWhile p).head? = some c → p c = false := by
  intro l
  induction l with
  | nil => intro c h; exact absurd h (by simp)
  | cons x xs ih =>
    intro c h
    rw [List.dropWhile_cons] at h
    by_cases hx : p x
    · rw [if_pos hx] at h; exact ih c h
    · rw [if_neg hx] at h
      cases Option.some.inj h
      exact Bool.of_not_eq_true hx

/-- A successful summary records the data-row count as the total, counts
the strictly positive parsed values, and guards the percentage division
behind a positivity test on the total. -/
theorem summaryStats_ok (rows : List Row) (counts : List Int)
    (h : rows.mapM linksOfRow = Except.ok counts) :
    summaryStats rows = Except.ok
      { total := rows.length
        with_links := (counts.filter (fun n => 0 < n)).length
        percentage :=
          if 0 < rows.length then
            (((counts.filter (fun n => 0 < n)).length : ℚ) / (rows.length : ℚ)) * 100
          else 0 } := by
  have h2 : List.mapM.loop linksOfRow rows [] = Except.ok counts := h
  simp [summaryStats, h2]

/-- A summary never fails with a division error when the total is zero:
the percentage is the guarded value `0`. -/
theorem summaryStats_total_zero (rows : List Row) (st : SummaryStats)
    (h : summaryStats rows = Except.ok st) (hz : st.total = 0) :
    st.percentage = 0 := by
  unfold summaryStats at h
  cases hm : rows.mapM linksOfRow with
  | error e => rw [hm] at h; exact absurd h (by simp)
  | ok counts =>
    rw [hm] at h
    cases Except.ok.inj h
    simp only at hz
    simp [hz]

/-- A successful variant-A record preserves the input identifier pair. -/
theorem processRowA_pairs (lookup : Lookup) (row : Row) (st : Stat)
    (h : processRowA lookup row = Except.ok st) :
    statGet st "Dataset_PID" = rowGet row "Dataset_PID" ∧
    statGet st "Literature_PID" = rowGet row "Literature_PID" := by
  obtain ⟨dp, lp, rel, n, h1, h2, h3, h4, rfl⟩ := processRowA_ok lookup row st h
  exact ⟨by rw [h1]; rfl, by rw [h2]; rfl⟩

/-- A successful variant-B record preserves the input identifier pair. -/
theorem processRowB_pairs (lookup : Lookup) (row : Row) (st : Stat)
    (h : processRowB lookup row = Except.ok st) :
    statGet st "Dataset_PID" = rowGet row "Dataset_PID" ∧
    statGet st "Literature_PID" = rowGet row "Literature_PID" := by
  obtain ⟨dp, lp, n, h1, h2, h3, rfl⟩ := processRowB_ok lookup row st h
  exact ⟨by rw [h1]; rfl, by rw [h2]; rfl⟩

/-- A fully successful verify loop yields as many enriched records as
input records and preserves the identifier pair at every index. -/
theorem verifyLoop_pairs (pr : Row → Except Err Stat)
    (hpr : ∀ row st, pr row = Except.ok st →
      statGet st "Dataset_PID" = rowGet row "Dataset_PID" ∧
      statGet st "Literature_PID" = rowGet row "Literature_PID")
    (rows : List Row) (stats : List Stat)
    (h : verifyLoop pr rows = Except.ok stats) :
    stats.length = rows.length ∧
    ∀ i : Nat,
      stats[i]?.map (fun s => (statGet s "Dataset_PID", statGet s "Literature_PID")) =
      rows[i]?.map (fun r => (rowGet r "Dataset_PID", rowGet r "Literature_PID")) := by
  have hf := verifyLoop_ok_forall2 pr rows stats h
  clear h
  induction hf with
  | nil => exact ⟨rfl, fun i => by simp⟩
  | cons hR hf2 ih =>
    refine ⟨by simp [ih.1], fun i => ?_⟩
    cases i with
    | zero => simp [(hpr _ _ hR).1, (hpr _ _ hR).2]
    | succ j => simpa using ih.2 j

/-- When the whole entry point succeeds, each reported summary was
computed by `summaryStats` over the rows re-read from the corresponding
output file. -/
theorem pyMain_ok_summary (lookup : Lookup) (fs : FS) (sA sB : SummaryStats)
    (h : pyMain lookup fs = Except.ok (sA, sB)) :
    ∃ rowsA rowsB, summaryStats rowsA = Except.ok sA ∧
      summaryStats rowsB = Except.ok sB := by
  unfold pyMain at h
  split at h
  · exact absurd h (by simp)
  · split at h
    · exact absurd h (by simp)
    · split at h
      · exact absurd h (by simp)
      · rename_i rowsA hreadA
        split at h
        · exact absurd h (by simp)
        · rename_i rowsB hreadB
          split at h
          · exact absurd h (by simp)
          · rename_i sA2 hsumA
            split at h
            · exact absurd h (by simp)
            · rename_i sB2 hsumB
              cases Except.ok.inj h
              exact ⟨rowsA, rowsB, hsumA, hsumB⟩

/-! ## Claims -/

/-- C1: for every input record, the constructed lookup query is
`<base>/v3/Links?sourcePid=<dataset_pid>&targetPid=<literature_pid>` with
`&relation=<relation>` appended exactly for the variant-A pipeline; an
empty variant-A relation still yields a trailing `relation=` segment; the
identifiers are interpolated verbatim with no URL-encoding, and the
enriched record stores exactly this query. -/
theorem C1_query_construction :
    (∀ d l r : String, scholix_url_A d l r =
        scholexplorer_domain ++ "/v3/Links?sourcePid=" ++ d ++ "&targetPid=" ++ l
          ++ "&relation=" ++ r) ∧
    (∀ d l : String, scholix_url_B d l =
        scholexplorer_domain ++ "/v3/Links?sourcePid=" ++ d ++ "&targetPid=" ++ l) ∧
    (∀ d l : String, scholix_url_A d l "" = scholix_url_B d l ++ "&relation=") ∧
    (∀ (lookup : Lookup) (row : Row) (st : Stat) (dp lp rel : PyVal),
        rowGet row "Dataset_PID" = some dp →
        rowGet row "Literature_PID" = some lp →
        rowGet row "DataCite_RelationType_of_Dataset_PID_record" = some rel →
        processRowA lookup row = Except.ok st →
        statGet st "url_to_scholix" =
          some (PyVal.str (scholix_url_A (pyStr dp) (pyStr lp) (pyStr rel)))) ∧
    (∀ (lookup : Lookup) (row : Row) (st : Stat) (dp lp : PyVal),
        rowGet row "Dataset_PID" = some dp →
        rowGet row "Literature_PID" = some lp →
        processRowB lookup row = Except.ok st →
        statGet st "url_to_scholix" =
          some (PyVal.str (scholix_url_B (pyStr dp) (pyStr lp)))) := by
  refine ⟨?_, ?_, ?_, ?_, ?_⟩
  · intro d l r
    simp [scholix_url_A, method_path_A, String.append_assoc]
  · intro d l
    simp [scholix_url_B, method_path_B, String.append_assoc]
  · intro d l
    simp [scholix_url_A, scholix_url_B, method_path_A, method_path_B, String.append_assoc]
  · intro lookup row st dp lp rel h1 h2 h3 h
    obtain ⟨dp2, lp2, rel2, n, h1b, h2b, h3b, h4, rfl⟩ := processRowA_ok lookup row st h
    rw [h1] at h1b
    rw [h2] at h2b
    rw [h3] at h3b
    cases Option.some.inj h1b
    cases Option.some.inj h2b
    cases Option.some.inj h3b
    rfl
  · intro lookup row st dp lp h1 h2 h
    obtain ⟨dp2, lp2, n, h1b, h2b, h4, rfl⟩ := processRowB_ok lookup row st h
    rw [h1] at h1b
    rw [h2] at h2b
    cases Option.some.inj h1b
    cases Option.some.inj h2b
    rfl

/-- Witness for C1 on a concrete record and service. -/
theorem C1_query_construction_witness :
    statGet statA1 "url_to_scholix" =
      some (PyVal.str (scholix_url_A (pyStr (PyVal.str "D1")) (pyStr (PyVal.str "L1"))
        (pyStr (PyVal.str "IsSupplementTo")))) :=
  C1_query_construction.2.2.2.1 lookupTwo rowA1 statA1 (PyVal.str "D1") (PyVal.str "L1")
    (PyVal.str "IsSupplementTo") (by decide) (by decide) (by decide) (by decide)

/-- C2: a lookup response lacking `totalLinks` makes the record
verification fail with the schema error (in either pipeline variant), and
any verify-loop failure aborts the pass with the error propagated, the
file system untouched and no write-phase event — in particular the output
file of the pass is neither opened, created nor modified. -/
theorem C2_missing_totalLinks_aborts_before_write :
    (∀ (lookup : Lookup) (row : Row) (dp lp rel : PyVal),
        rowGet row "Dataset_PID" = some dp →
        rowGet row "Literature_PID" = some lp →
        rowGet row "DataCite_RelationType_of_Dataset_PID_record" = some rel →
        lookup (scholix_url_A (pyStr dp) (pyStr lp) (pyStr rel)) = Option.none →
        processRowA lookup row = Except.error Err.schemaError) ∧
    (∀ (lookup : Lookup) (row : Row) (dp lp : PyVal),
        rowGet row "Dataset_PID" = some dp →
        rowGet row "Literature_PID" = some lp →
        lookup (scholix_url_B (pyStr dp) (pyStr lp)) = Option.none →
        processRowB lookup row = Except.error Err.schemaError) ∧
    (∀ (inP outP : String) (pr : Row → Except Err Stat) (fs : FS)
        (rows : List Row) (e : Err),
        read_csv fs inP = Except.ok rows →
        verifyLoop pr rows = Except.error e →
        (runPass inP outP pr fs).err = some e ∧
        (runPass inP outP pr fs).fs = fs ∧
        (runPass inP outP pr fs).events = []) ∧
    (∀ (inP outP : String) (pr : Row → Except Err Stat) (fs : FS)
        (pre post : List Row) (row : Row) (e : Err),
        read_csv fs inP = Except.ok (pre ++ row :: post) →
        (∀ r ∈ pre, ∃ s, pr r = Except.ok s) →
        pr row = Except.error e →
        (runPass inP outP pr fs).err.isSome = true ∧
        (runPass inP outP pr fs).fs = fs ∧
        (runPass inP outP pr fs).events = []) := by
  refine ⟨?_, ?_, ?_, ?_⟩
  · intro lookup row dp lp rel h1 h2 h3 h4
    simp [processRowA, h1, h2, h3, h4]
  · intro lookup row dp lp h1 h2 h4
    simp [processRowB, h1, h2, h4]
  · intro inP outP pr fs rows e h1 h2
    rw [runPass_of_loop_error inP outP pr fs rows e h1 h2]
    exact ⟨rfl, rfl, rfl⟩
  · intro inP outP pr fs pre post row e h1 hpre hrow
    obtain ⟨e2, he2⟩ := verifyLoop_error pr pre row post e hpre hrow
    rw [runPass_of_loop_error inP outP pr fs (pre ++ row :: post) e2 h1 he2]
    exact ⟨rfl, rfl, rfl⟩

/-- Witness for C2 on a concrete record, file system and service whose
responses lack `totalLinks`. -/
theorem C2_missing_totalLinks_witness :
    processRowA lookupMissing rowA1 = Except.error Err.schemaError ∧
    (runPass inputPathA outPathA (processRowA lookupMissing) fsOneRow).err =
      some Err.schemaError ∧
    (runPass inputPathA outPathA (processRowA lookupMissing) fsOneRow).fs = fsOneRow ∧
    (runPass inputPathA outPathA (processRowA lookupMissing) fsOneRow).events = [] ∧
    (runPass inputPathA outPathA (processRowA lookupMissing) fsOneRow).err.isSome = true := by
  have h1 := C2_missing_totalLinks_aborts_before_write.1 lookupMissing rowA1
    (PyVal.str "D1") (PyVal.str "L1") (PyVal.str "IsSupplementTo")
    (by decide) (by decide) (by decide) (by decide)
  have h2 := C2_missing_totalLinks_aborts_before_write.2.2.1 inputPathA outPathA
    (processRowA lookupMissing) fsOneRow [rowA1] Err.schemaError (by decide) (by decide)
  have h3 := C2_missing_totalLinks_aborts_before_write.2.2.2 inputPathA outPathA
    (processRowA lookupMissing) fsOneRow [] [] rowA1 Err.schemaError (by decide)
    (by simp) (by decide)
  exact ⟨h1, h2.1, h2.2.1, h2.2.2, h3.1⟩

/-- C3: the summary step reports the data-row count as total, the number
of rows whose count column parses to a strictly positive integer as
with_links, and with_links / total * 100 as percentage; for count column
values 0, 3, 0, 5, 1 it reports total 5, with_links 3, percentage 60. -/
theorem C3_summary_computation :
    (∀ (rows : List Row) (counts : List Int),
        rows.mapM linksOfRow = Except.ok counts →
        summaryStats rows = Except.ok
          { total := rows.length
            with_links := (counts.filter (fun n => 0 < n)).length
            percentage :=
              if 0 < rows.length then
                (((counts.filter (fun n => 0 < n)).length : ℚ) / (rows.length : ℚ)) * 100
              else 0 }) ∧
    summaryStats rows5 = Except.ok ⟨5, 3, 60⟩ := by
  refine ⟨summaryStats_ok, ?_⟩
  rw [summaryStats_ok rows5 [0, 3, 0, 5, 1] (by decide)]
  have h5 : rows5.length = 5 := by decide
  have h3 : (([0, 3, 0, 5, 1] : List Int).filter (fun n => 0 < n)).length = 3 := by decide
  rw [h5, h3]
  norm_num

/-- Witness for C3 on the persisted counts 0, 3, 0, 5, 1. -/
theorem C3_summary_witness :
    summaryStats rows5 = Except.ok
      { total := rows5.length
        with_links := ((([0, 3, 0, 5, 1] : List Int)).filter (fun n => 0 < n)).length
        percentage :=
          if 0 < rows5.length then
            ((((([0, 3, 0, 5, 1] : List Int)).filter (fun n => 0 < n)).length : ℚ) /
              (rows5.length : ℚ)) * 100
          else 0 } :=
  C3_summary_computation.1 rows5 [0, 3, 0, 5, 1] (by decide)

/-- C5: summarising an output with zero data rows reports percentage 0
without any division: the guarded branch returns 0, and this holds for
both summaries computed by the entry point. -/
theorem C5_zero_division_guard :
    summaryStats ([] : List Row) = Except.ok ⟨0, 0, 0⟩ ∧
    (∀ (lookup : Lookup) (fs : FS) (sA sB : SummaryStats),
        pyMain lookup fs = Except.ok (sA, sB) →
        (sA.total = 0 → sA.percentage = 0) ∧ (sB.total = 0 → sB.percentage = 0)) := by
  refine ⟨by decide, ?_⟩
  intro lookup fs sA sB h
  obtain ⟨rowsA, rowsB, hA, hB⟩ := pyMain_ok_summary lookup fs sA sB h
  exact ⟨summaryStats_total_zero rowsA sA hA, summaryStats_total_zero rowsB sB hB⟩

/-- Witness for C5 on a run whose inputs and pre-existing outputs are all
header-only. -/
theorem C5_zero_division_witness :
    summaryStats ([] : List Row) = Except.ok ⟨0, 0, 0⟩ ∧
    ((s00.total = 0 → s00.percentage = 0) ∧ (s00.total = 0 → s00.percentage = 0)) :=
  ⟨C5_zero_division_guard.1,
   C5_zero_division_guard.2 lookupTwo fsHeaderOnly s00 s00 (by decide)⟩

/-- C6: a pass whose enriched-record sequence is empty performs no file
I/O at all — the file system is unchanged (so the output file is neither
created nor opened), no error is signalled, and the only observable event
is the "nothing written" skip message. -/
theorem C6_empty_sequence_skips_write :
    ∀ (inP outP : String) (pr : Row → Except Err Stat) (fs : FS) (rows : List Row),
      read_csv fs inP = Except.ok rows →
      verifyLoop pr rows = Except.ok [] →
      (runPass inP outP pr fs).fs = fs ∧
      (runPass inP outP pr fs).err = Option.none ∧
      (runPass inP outP pr fs).events = [WEvent.skipMsg] ∧
      ∀ p : String, WEvent.openOutput p ∉ (runPass inP outP pr fs).events := by
  intro inP outP pr fs rows h1 h2
  rw [runPass_of_loop_empty inP outP pr fs rows h1 h2]
  exact ⟨rfl, rfl, rfl, fun p => by simp⟩

/-- Witness for C6 on a concrete header-only input. -/
theorem C6_empty_sequence_witness :
    (runPass inputPathA outPathA (processRowA lookupTwo) fsFresh).fs = fsFresh ∧
    (runPass inputPathA outPathA (processRowA lookupTwo) fsFresh).err = Option.none ∧
    (runPass inputPathA outPathA (processRowA lookupTwo) fsFresh).events =
      [WEvent.skipMsg] ∧
    WEvent.openOutput outPathA ∉
      (runPass inputPathA outPathA (processRowA lookupTwo) fsFresh).events := by
  have h := C6_empty_sequence_skips_write inputPathA outPathA (processRowA lookupTwo)
    fsFresh [] (by decide) rfl
  exact ⟨h.1, h.2.1, h.2.2.1, h.2.2.2 outPathA⟩

/-- C9: the record reader fails with the not-found error when the source
path does not exist, and with the malformed-input error when the source
exists but has no header line. -/
theorem C9_reader_errors :
    ∀ (fs : FS) (path : String),
      (fs path = Option.none → read_csv fs path = Except.error Err.notFound) ∧
      (fs path = some [] → read_csv fs path = Except.error Err.malformedInput) :=
  fun fs path =>
    ⟨fun h => by simp [read_csv, h], fun h => by simp [read_csv, h]⟩

/-- Witness for C9 on a concrete file system. -/
theorem C9_reader_errors_witness :
    read_csv fsEmptyInput "missing.csv" = Except.error Err.notFound ∧
    read_csv fsEmptyInput inputPathA = Except.error Err.malformedInput :=
  ⟨(C9_reader_errors fsEmptyInput "missing.csv").1 (by decide),
   (C9_reader_errors fsEmptyInput inputPathA).2 (by decide)⟩

/-- Every named key of a row dictionary is one of its field names. -/
theorem dictRow_key_mem :
    ∀ (fns row : List String) (k : String) (v : PyVal),
      (some k, v) ∈ dictRow fns row → k ∈ fns := by
  intro fns row k v h
  unfold dictRow at h
  rcases List.mem_append.mp h with h12 | h3
  · rcases List.mem_append.mp h12 with h1 | h2
    · obtain ⟨⟨k2, cell⟩, hz, heq⟩ := List.mem_map.mp h1
      injection heq with hk hv
      cases Option.some.inj hk
      exact (List.of_mem_zip hz).1
    · by_cases hc : fns.length < row.length
      · rw [if_pos hc] at h2
        simp at h2
      · rw [if_neg hc] at h2
        exact absurd h2 (List.not_mem_nil _)
  · by_cases hc : row.length < fns.length
    · rw [if_pos hc] at h3
      obtain ⟨k2, hk2, heq⟩ := List.mem_map.mp h3
      injection heq with hk hv
      cases Option.some.inj hk
      exact List.mem_of_mem_drop hk2
    · rw [if_neg hc] at h3
      exact absurd h3 (List.not_mem_nil _)

/-- C4: an input sequence in which every record verifies yields exactly
as many enriched records, in the same relative order, with the i-th
enriched record carrying the i-th input record's identifier pair — for
both pipeline variants. -/
theorem C4_order_preservation :
    (∀ (lookup : Lookup) (rows : List Row) (stats : List Stat),
        verifyLoop (processRowA lookup) rows = Except.ok stats →
        stats.length = rows.length ∧
        ∀ i : Nat,
          stats[i]?.map (fun s => (statGet s "Dataset_PID", statGet s "Literature_PID")) =
          rows[i]?.map (fun r => (rowGet r "Dataset_PID", rowGet r "Literature_PID"))) ∧
    (∀ (lookup : Lookup) (rows : List Row) (stats : List Stat),
        verifyLoop (processRowB lookup) rows = Except.ok stats →
        stats.length = rows.length ∧
        ∀ i : Nat,
          stats[i]?.map (fun s => (statGet s "Dataset_PID", statGet s "Literature_PID")) =
          rows[i]?.map (fun r => (rowGet r "Dataset_PID", rowGet r "Literature_PID"))) :=
  ⟨fun lookup rows stats h =>
    verifyLoop_pairs (processRowA lookup) (processRowA_pairs lookup) rows stats h,
   fun lookup rows stats h =>
    verifyLoop_pairs (processRowB lookup) (processRowB_pairs lookup) rows stats h⟩

/-- Witness for C4 on a concrete one-record run. -/
theorem C4_order_preservation_witness :
    ([statA1].length = [rowA1].length ∧
      [statA1][0]?.map (fun s => (statGet s "Dataset_PID", statGet s "Literature_PID")) =
      [rowA1][0]?.map (fun r => (rowGet r "Dataset_PID", rowGet r "Literature_PID"))) := by
  have h := C4_order_preservation.1 lookupTwo [rowA1] [statA1] (by decide)
  exact ⟨h.1, h.2 0⟩

/-- C7 counterexample: the header `hdrBad` contains a leading byte-order
mark and quote characters, yet its second parsed field name still begins
with a byte-order mark — the BOM was shielded from `lstrip` by the quote
character that `replace` removed afterwards. This refutes the claim that
for any such header the resulting field names contain neither. -/
theorem C7_header_normalization_cex :
    hdrBad.data.head? = some bomChar ∧
    quoteChar ∈ hdrBad.data ∧
    parseHeader hdrBad = ["A", String.mk [bomChar, 'X']] ∧
    (String.mk [bomChar, 'X']).data.head? = some bomChar := by
  exact ⟨rfl, by decide, by decide, rfl⟩

/-- C7 amended: each parsed field name is its header segment with leading
byte-order marks stripped and then every quote character removed; hence
field names never contain a quote character, a segment without quote
characters never yields a name with a leading byte-order mark, and the
parsed field-name list keys every subsequent row mapping. -/
theorem C7_header_normalization_amended :
    (∀ (line name : String), name ∈ parseHeader line →
        ∀ c ∈ name.data, c ≠ quoteChar) ∧
    (∀ seg : String, (∀ c ∈ seg.data, c ≠ quoteChar) →
        (removeQuotes (lstripBOM seg)).data.head? ≠ some bomChar) ∧
    (∀ (line : String) (row : List String) (k : String) (v : PyVal),
        (some k, v) ∈ dictRow (parseHeader line) row → k ∈ parseHeader line) := by
  refine ⟨?_, ?_, ?_⟩
  · intro line name hmem c hc
    obtain ⟨seg, hseg, rfl⟩ := List.mem_map.mp hmem
    have h2 : c ∈ (lstripBOM seg).data.filter (fun c => decide (c ≠ quoteChar)) := hc
    exact of_decide_eq_true (List.mem_filter.mp h2).2
  · intro seg hq heq
    have hsub : ∀ c ∈ (lstripBOM seg).data, decide (c ≠ quoteChar) = true := by
      intro c hc
      exact decide_eq_true (hq c ((List.dropWhile_sublist _).subset hc))
    have hfix : (removeQuotes (lstripBOM seg)).data = (lstripBOM seg).data :=
      List.filter_eq_self.mpr hsub
    rw [hfix] at heq
    have hfalse := head_dropWhile_false (fun c => decide (c = bomChar)) seg.data bomChar heq
    simp at hfalse
  · intro line row k v h
    exact dictRow_key_mem (parseHeader line) row k v h

/-- Witness for C7 on a concrete quote-free segment. -/
theorem C7_header_normalization_witness :
    (removeQuotes (lstripBOM (String.mk [bomChar, 'Y']))).data.head? ≠ some bomChar :=
  C7_header_normalization_amended.2.1 (String.mk [bomChar, 'Y']) (by decide)

/-- C8 counterexample: a data row shorter than the header does not yield
a mapping with missing keys — `DictReader` binds every header key, the
unmatched one to the `None` restval. -/
theorem C8_short_row_cex :
    dictRow ["A", "B"] ["x"] = [(some "A", PyVal.str "x"), (some "B", PyVal.none)] ∧
    (dictRow ["A", "B"] ["x"]).map (fun p => p.1) = [some "A", some "B"] :=
  ⟨by decide, by decide⟩

/-- C8 amended: a wrong-field-count row never fails: the reader yields a
mapping binding every header key (a shorter row binds the unmatched
trailing keys to the `None` restval rather than omitting them), and a
longer row adds one restkey entry holding the surplus cells. -/
theorem C8_permissive_reader_amended :
    (∀ (fns row : List String) (k : String), k ∈ fns →
        (rowGet (dictRow fns row) k).isSome = true) ∧
    (∀ (fns row : List String), row.length < fns.length →
        ∀ k ∈ fns.drop row.length, (some k, PyVal.none) ∈ dictRow fns row) ∧
    (∀ (fns row : List String), fns.length < row.length →
        (Option.none, PyVal.rest (row.drop fns.length)) ∈ dictRow fns row) := by
  refine ⟨?_, ?_, ?_⟩
  · intro fns row k hk
    obtain ⟨v, hv⟩ := dictRow_mem_keys fns row k hk
    have hfind : (List.find? (fun p => p.1 == some k) (dictRow fns row)).isSome :=
      List.find?_isSome.mpr ⟨(some k, v), hv, by simp⟩
    unfold rowGet
    cases hf : List.find? (fun p => p.1 == some k) (dictRow fns row) with
    | none => rw [hf] at hfind; simp at hfind
    | some p => rfl
  · intro fns row hlt k hk
    unfold dictRow
    refine List.mem_append_right _ ?_
    rw [if_pos hlt]
    exact List.mem_map_of_mem _ hk
  · intro fns row hlt
    unfold dictRow
    refine List.mem_append_left _ (List.mem_append_right _ ?_)
    rw [if_pos hlt]
    exact List.mem_singleton_self _

/-- Witness for C8 on concrete short and long rows. -/
theorem C8_permissive_reader_witness :
    (rowGet (dictRow ["A", "B"] ["x"]) "B").isSome = true ∧
    (some "B", PyVal.none) ∈ dictRow ["A", "B"] ["x"] ∧
    (Option.none, PyVal.rest ["y"]) ∈ dictRow ["A"] ["x", "y"] :=
  ⟨C8_permissive_reader_amended.1 ["A", "B"] ["x"] "B" (by decide),
   C8_permissive_reader_amended.2.1 ["A", "B"] ["x"] (by decide) "B" (by decide),
   C8_permissive_reader_amended.2.2 ["A"] ["x", "y"] (by decide)⟩

/-- C10: when a pass consumes zero records its output file is never
created, yet the summary phase unconditionally re-reads both outputs;
a run on a fresh file system with a header-only variant-A input aborts
with the not-found error (first conjunct), and so does a run whose
variant-B input is header-only while the variant-A side summarises fine
but the variant-B output was never created (second conjunct). -/
theorem C10_empty_input_aborts_summary :
    (∀ (lookup : Lookup) (fs : FS) (hA hB : String),
        fs inputPathA = some [hA] →
        fs inputPathB = some [hB] →
        fs outPathA = Option.none →
        pyMain lookup fs = Except.error Err.notFound) ∧
    (∀ (lookup : Lookup) (fs : FS) (hB : String) (rowsA : List Row),
        fs inputPathB = some [hB] →
        fs outPathB = Option.none →
        (runPass inputPathA outPathA (processRowA lookup) fs).err = Option.none →
        read_csv (runPass inputPathA outPathA (processRowA lookup) fs).fs outPathA =
          Except.ok rowsA →
        pyMain lookup fs = Except.error Err.notFound) := by
  constructor
  · intro lookup fs hA hB h1 h2 h3
    have hpa := runPass_header_only inputPathA outPathA (processRowA lookup) fs hA h1
    have hpb := runPass_header_only inputPathB outPathB (processRowB lookup) fs hB h2
    have hro : read_csv fs outPathA = Except.error Err.notFound := by
      simp [read_csv, h3]
    simp [pyMain, hpa, hpb, hro]
  · intro lookup fs hB rowsA h1 h2 herr hread
    have hfB : (runPass inputPathA outPathA (processRowA lookup) fs).fs inputPathB =
        some [hB] := by
      rw [runPass_fs_frame inputPathA outPathA (processRowA lookup) fs inputPathB
        (by decide)]
      exact h1
    have hfOutB : (runPass inputPathA outPathA (processRowA lookup) fs).fs outPathB =
        Option.none := by
      rw [runPass_fs_frame inputPathA outPathA (processRowA lookup) fs outPathB
        (by decide)]
      exact h2
    rcases hpe : runPass inputPathA outPathA (processRowA lookup) fs with ⟨fsA, evA, errA⟩
    rw [hpe] at herr hread hfB hfOutB
    simp only at herr hread hfB hfOutB
    cases herr
    have hpb := runPass_header_only inputPathB outPathB (processRowB lookup) fsA hB hfB
    have hrb : read_csv fsA outPathB = Except.error Err.notFound := by
      simp [read_csv, hfOutB]
    simp [pyMain, hpe, hpb, hread, hrb]

/-- Witness for C10 on two concrete fresh runs. -/
theorem C10_empty_input_witness :
    pyMain lookupTwo fsFresh = Except.error Err.notFound ∧
    pyMain lookupTwo fsOutAOnly = Except.error Err.notFound :=
  ⟨C10_empty_input_aborts_summary.1 lookupTwo fsFresh
    "Dataset_PID;Literature_PID;DataCite_RelationType_of_Dataset_PID_record"
    "Dataset_PID;Literature_PID" (by decide) (by decide) (by decide),
   C10_empty_input_aborts_summary.2 lookupTwo fsOutAOnly
    "Dataset_PID;Literature_PID" [] (by decide) (by decide) (by decide) (by decide)⟩

end ScholCheck
